import Mathlib

/-!
Verification development for `library.js` of the powerpages-devkit
repository.  The file gives a shallow embedding of the two engines in the
source — the subgrid Add-button toggler (`library.grid.limitSubgridAdds`)
and the conditional-field engine (`library.form.setupConditionalFields`) —
and proves the spec claims about them.

Modelling conventions:
  * DOM elements are plain records; a document is the list of its elements.
    Each element carries the list of CSS selector strings it matches, so
    `document.querySelector(s)` is "first element whose selector list
    contains `s`" (selector syntax itself is host configuration, out of
    scope per the spec).
  * JS strings are Lean `String`s and the handful of string operations the
    source uses (`toUpperCase`, `toLowerCase`, `trim`, the `/^-?\d+$/`
    regex, `parseInt`) are re-implemented over the character list so they
    reduce inside the kernel.
  * Synthetic `dispatchEvent` calls are recorded as a list of event
    records; listener cascades are interpreted with a fuel parameter
    (`apply fuel`), since JS event dispatch is synchronous re-entrant
    recursion.
-/

namespace PowerPages

/-- ASCII upper-casing over the character list, the model of
`String.prototype.toUpperCase` as used on tag names. -/
def asciiUpper (s : String) : String := ⟨s.data.map Char.toUpper⟩

/-- ASCII lower-casing over the character list, the model of
`String.prototype.toLowerCase` as used on `el.type`. -/
def asciiLower (s : String) : String := ⟨s.data.map Char.toLower⟩

/-- Whitespace trim over the character list, the model of
`String.prototype.trim`. -/
def jsTrim (s : String) : String :=
  ⟨((s.data.dropWhile Char.isWhitespace).reverse.dropWhile Char.isWhitespace).reverse⟩

/-- Test for the regex `/^-?\d+$/` from `coerceNumber` in the source: an
optional leading minus sign followed by one or more decimal digits and
nothing else. -/
def isIntLiteral (s : String) : Bool :=
  match s.data with
  | [] => false
  | c :: cs =>
    if c = '-' then !cs.isEmpty && cs.all Char.isDigit
    else (c :: cs).all Char.isDigit

/-- Positional decimal value of a digit string. -/
def digitsToNat (cs : List Char) : Nat :=
  cs.foldl (fun a c => a * 10 + (c.toNat - 48)) 0

/-- The value `parseInt(s, 10)` returns on a string fully matched by
`/^-?\d+$/` (the only situation the source calls it in). -/
def parseIntLit (s : String) : Int :=
  match s.data with
  | '-' :: cs => -(digitsToNat cs : Int)
  | cs => (digitsToNat cs : Int)

section GridSection

/-- A `tbody tr` row of a subgrid table; `dataEntity` is its
`data-entity` attribute, `none` when the attribute is absent. -/
structure Row where
  dataEntity : Option String
deriving DecidableEq, Repr

/-- The `.view-grid table` element of a grid, reduced to its tbody rows. -/
structure GridTable where
  tbodyRows : List Row
deriving DecidableEq, Repr

/-- The state of one Add button that `showAdd`/`hideAdd` mutate:
the `pp-show-add` class, the inline `display`/`visibility` style
properties (`none`-valued `Option` means the property is removed), the
`hidden` attribute, the two ARIA attributes, and `tabIndex`. -/
structure AddBtn where
  hasShowAddClass : Bool
  styleDisplay : Option String
  styleVisibility : Option String
  hiddenAttr : Option String
  ariaHidden : Option String
  ariaDisabled : Option String
  tabIndex : Int
deriving DecidableEq, Repr

/-- A subgrid: the optional `.view-grid table` child and the Add buttons
matched by the add-button selector. -/
structure Grid where
  table : Option GridTable
  buttons : List AddBtn
deriving DecidableEq, Repr

/-- Embedding of `countRows(grid, entityName)` from the source: with a
truthy (non-empty) `entityName` count the `tbody tr[data-entity=...]`
rows; whenever that count is zero fall back to counting all `tbody tr`;
without a table return 0. -/
def countRows (grid : Grid) (entityName : String) : Nat :=
  match grid.table with
  | none => 0
  | some table =>
    let c := if entityName ≠ "" then
        (table.tbodyRows.filter (fun r => r.dataEntity = some entityName)).length
      else 0
    if c = 0 then table.tbodyRows.length else c

/-- Number of tbody rows of the grid carrying `data-entity = f` (the
quantity the first branch of `countRows` computes). -/
def filteredCount (grid : Grid) (f : String) : Nat :=
  match grid.table with
  | none => 0
  | some table => (table.tbodyRows.filter (fun r => r.dataEntity = some f)).length

/-- Number of all tbody rows of the grid's table (the quantity the
fallback branch of `countRows` computes; 0 when there is no table). -/
def allRows (grid : Grid) : Nat :=
  match grid.table with
  | none => 0
  | some table => table.tbodyRows.length

/-- Embedding of `showAdd(btn)`: add the `pp-show-add` class, remove the
inline `display` and `visibility` properties, remove `hidden`, set both
ARIA attributes to `"false"` and restore focusability. -/
def showAdd (btn : AddBtn) : AddBtn :=
  { btn with
    hasShowAddClass := true
    styleDisplay := none
    styleVisibility := none
    hiddenAttr := none
    ariaHidden := some "false"
    ariaDisabled := some "false"
    tabIndex := 0 }

/-- Embedding of `hideAdd(btn)`: drop the `pp-show-add` class, remove the
inline `display` property, set `hidden` and both ARIA attributes to
`"true"` and remove the button from the tab order. -/
def hideAdd (btn : AddBtn) : AddBtn :=
  { btn with
    hasShowAddClass := false
    styleDisplay := none
    hiddenAttr := some "true"
    ariaHidden := some "true"
    ariaDisabled := some "true"
    tabIndex := -1 }

/-- Embedding of `toggleInGrid(grid)`: compare the current row count with
`MAX_ROWS` and run `showAdd` or `hideAdd` over every matched button. -/
def toggleInGrid (maxRows : Int) (entityName : String) (g : Grid) : Grid :=
  let rows : Int := (countRows g entityName : Int)
  if rows < maxRows then { g with buttons := g.buttons.map showAdd }
  else { g with buttons := g.buttons.map hideAdd }

end GridSection

section FormSection

/-- An `<option>` child of a select element: its `value` and `selected`
flag. -/
structure OptionEl where
  value : String
  selected : Bool
deriving DecidableEq, Repr

/-- A form-field DOM element as the conditional-field engine observes and
mutates it.  `eid` is node identity, `selectors` the CSS selector strings
the node matches (selector matching itself is host configuration),
`parent` the identity of `parentElement`, and `styleDisplay` the inline
`style.display` value (`""` when unset). -/
structure Elem where
  eid : Nat
  selectors : List String
  tagName : String
  type : String
  name : String
  checked : Bool
  value : String
  multiple : Bool
  options : List OptionEl
  selectedIndex : Int
  parent : Option Nat
  styleDisplay : String
deriving DecidableEq, Repr

/-- A document: the list of its elements in document order. -/
structure Doc where
  elems : List Elem
deriving DecidableEq, Repr

/-- Embedding of `document.querySelector(s)`: the first element in
document order matching the selector. -/
def querySelector (doc : Doc) (s : String) : Option Elem :=
  doc.elems.find? (fun e => e.selectors.contains s)

/-- Element lookup by node identity (a live JS element reference). -/
def getById (doc : Doc) (i : Nat) : Option Elem :=
  doc.elems.find? (fun e => e.eid = i)

/-- Update every element with the given node identity. -/
def updateById (doc : Doc) (i : Nat) (f : Elem → Elem) : Doc :=
  ⟨doc.elems.map (fun e => if e.eid = i then f e else e)⟩

/-- Membership test for the constructed selector
`input[type="radio"][name="N"]` used by `val` and `clearValue`. -/
def isRadioNamed (n : String) (r : Elem) : Bool :=
  asciiUpper r.tagName = "INPUT" && asciiLower r.type = "radio" && r.name = n

/-- Embedding of
`document.querySelectorAll('input[type="radio"][name="N"]')`. -/
def radioGroup (doc : Doc) (n : String) : List Elem :=
  doc.elems.filter (isRadioNamed n)

/-- A scalar value: the result of `coerceNumber` — an integer when the
raw string was a pure integer literal, the string otherwise. -/
inductive Scalar where
  | int (n : Int)
  | str (s : String)
deriving DecidableEq, Repr

/-- The coerced reading of a field per the spec's data model: boolean
(checkbox), scalar, or sequence of scalars (multi-select). -/
inductive Value where
  | bool (b : Bool)
  | scalar (s : Scalar)
  | seq (xs : List Scalar)
deriving DecidableEq, Repr

/-- Embedding of `coerceNumber(v)` for string inputs: `parseInt(v, 10)`
when `/^-?\d+$/` matches, the string unchanged otherwise. -/
def coerceNumber (v : String) : Scalar :=
  if isIntLiteral v then Scalar.int (parseIntLit v) else Scalar.str v

/-- Embedding of `val(el)`: `""` for a missing element; checkbox →
boolean; radio → coerced value of the first checked member of the name
group, or coerced `""` when none is checked; multiple select → coerced
values of the selected options; anything else → the trimmed value
coerced. -/
def val (doc : Doc) : Option Elem → Value
  | none => Value.scalar (Scalar.str "")
  | some el =>
    let tag := asciiUpper el.tagName
    let ty := asciiLower el.type
    if ty = "checkbox" then Value.bool el.checked
    else if ty = "radio" then
      match (radioGroup doc el.name).find? (fun r => r.checked) with
      | some r => Value.scalar (coerceNumber r.value)
      | none => Value.scalar (coerceNumber "")
    else if tag = "SELECT" && el.multiple then
      Value.seq ((el.options.filter (fun o => o.selected)).map (fun o => coerceNumber o.value))
    else Value.scalar (coerceNumber (jsTrim el.value))

/-- Embedding of `fieldWrap(el, depth)`: walk up to `depth` parent links,
stopping early when the chain runs out. -/
def fieldWrap (doc : Doc) : Elem → Nat → Elem
  | c, 0 => c
  | c, Nat.succ d =>
    match c.parent with
    | none => c
    | some pid =>
      match getById doc pid with
      | none => c
      | some p => fieldWrap doc p d

/-- A dispatched synthetic event: the node it was dispatched on and the
event name. -/
structure EventRec where
  eid : Nat
  name : String
deriving DecidableEq, Repr

/-- The state mutation performed by `clearValue(el)` (everything before
its two `dispatchEvent` calls): checkbox → unchecked; radio → whole name
group unchecked; multiple select → all options deselected; single select
→ `selectedIndex = -1` and empty value; anything else → empty value. -/
def clearDoc (doc : Doc) (el : Elem) : Doc :=
  let tag := asciiUpper el.tagName
  let ty := asciiLower el.type
  if ty = "checkbox" then
    updateById doc el.eid (fun e => { e with checked := false })
  else if ty = "radio" then
    ⟨doc.elems.map (fun r => if isRadioNamed el.name r then { r with checked := false } else r)⟩
  else if tag = "SELECT" && el.multiple then
    updateById doc el.eid (fun e =>
      { e with options := e.options.map (fun o => { o with selected := false }) })
  else if tag = "SELECT" then
    updateById doc el.eid (fun e => { e with selectedIndex := -1, value := "" })
  else
    updateById doc el.eid (fun e => { e with value := "" })

/-- Embedding of `clearValue(el)` in isolation: a missing element is a
no-op; otherwise mutate per field kind and dispatch one `change` and one
`input` event on the element (cascaded listener reaction is interpreted
separately by `apply`). -/
def clearValue (doc : Doc) : Option Elem → Doc × List EventRec
  | none => (doc, [])
  | some el => (clearDoc doc el, [⟨el.eid, "change"⟩, ⟨el.eid, "input"⟩])

/-- One field of the context object literal `apply` passes to a rule's
`when` function: the `val` reader, the `get` reader, or the resolved
target element. -/
inductive CtxField where
  | valFn (f : String → Value)
  | getFn (f : String → Option Elem)
  | elemRef (e : Elem)

/-- The context object, as a JS object is: an association of property
names to values. -/
def Ctx : Type := List (String × CtxField)

/-- The object literal built in `apply` before invoking `rule.when`:
properties `val`, `get` and `targetEl`, in that order. -/
def mkCtx (doc : Doc) (target : Elem) : Ctx :=
  [("val", CtxField.valFn (fun s => val doc (querySelector doc s))),
   ("get", CtxField.getFn (fun s => querySelector doc s)),
   ("targetEl", CtxField.elemRef target)]

/-- Convenience accessor used by concrete example predicates: reading the
`val` property of the context and calling it (what `ctx.val(s)` does in a
rule author's predicate). -/
def ctxVal (c : Ctx) (s : String) : Value :=
  match List.lookup "val" c with
  | some (CtxField.valFn f) => f s
  | _ => Value.scalar (Scalar.str "")

/-- A rule record as `setupConditionalFields` consumes it, with the
source's field names: `target`, `deps`, `when`, `clearWhenHidden`. -/
structure Rule where
  target : String
  deps : List String
  when : Ctx → Bool
  clearWhenHidden : Bool

/-- A listener registered at install time: the node it is attached to,
the event name, and the rule the closure captured. -/
structure Listener where
  eid : Nat
  evt : String
  rule : Rule

/-- The engine state after install: the rule list, the attached
listeners, and the resolved container depth (parent hops). -/
structure Engine where
  rules : List Rule
  listeners : List Listener
  depth : Nat

/-- The listeners one rule contributes at install time: resolve each
dependency selector, drop the unresolved ones (`.filter(Boolean)`), and
attach an `input` and a `change` listener to each resolved element. -/
def wireRule (doc : Doc) (r : Rule) : List Listener :=
  (r.deps.filterMap (querySelector doc)).flatMap
    (fun el => [⟨el.eid, "input", r⟩, ⟨el.eid, "change", r⟩])

/-- Listener attachment for the whole rule list, in rule order. -/
def installListeners (doc : Doc) (rules : List Rule) : List Listener :=
  rules.flatMap (wireRule doc)

/-- Rules whose listener on node `eid` for event `evt` will run when that
event fires there, in attachment order. -/
def rulesListening (eng : Engine) (eid : Nat) (evt : String) : List Rule :=
  ((eng.listeners.filter (fun l => l.eid = eid && l.evt = evt)).map Listener.rule)

/-- Run `step` (one rule evaluation) over a list of rules left to right,
threading the document and concatenating the dispatched events. -/
def runList (step : Doc → Rule → Doc × List EventRec) :
    Doc → List Rule → Doc × List EventRec
  | doc, [] => (doc, [])
  | doc, r :: rs =>
    let p := step doc r
    let q := runList step p.1 rs
    (q.1, p.2 ++ q.2)

/-- One unfolding of `apply(rule)` given an interpretation `recStep` for
the listener reactions its synthetic events trigger: resolve the target
(skip when absent), invoke `rule.when` on the context object, set the
container's display, and when hiding with `clearWhenHidden`, clear the
target and dispatch `change` then `input`, each event synchronously
running the listeners attached to the target. -/
def applyCore (eng : Engine) (recStep : Doc → Rule → Doc × List EventRec)
    (doc : Doc) (rule : Rule) : Doc × List EventRec :=
  match querySelector doc rule.target with
  | none => (doc, [])
  | some target =>
    let showB := rule.when (mkCtx doc target)
    let container := fieldWrap doc target eng.depth
    let doc1 := updateById doc container.eid
      (fun e => { e with styleDisplay := if showB then "" else "none" })
    if !showB && rule.clearWhenHidden then
      let doc2 := clearDoc doc1 target
      let p := runList recStep doc2 (rulesListening eng target.eid "change")
      let q := runList recStep p.1 (rulesListening eng target.eid "input")
      (q.1, (⟨target.eid, "change"⟩ : EventRec) :: p.2 ++ (⟨target.eid, "input"⟩ : EventRec) :: q.2)
    else (doc1, [])

/-- Fueled interpretation of `apply(rule)`: the fuel bounds the depth of
synthetic-event cascades (finite in any terminating JS run). -/
def apply (eng : Engine) : Nat → Doc → Rule → Doc × List EventRec
  | 0, doc, _ => (doc, [])
  | Nat.succ n, doc, rule => applyCore eng (apply eng n) doc rule

/-- Embedding of the returned `reapplyAll()` closure:
`rules.forEach(apply)`. -/
def reapplyAll (eng : Engine) (fuel : Nat) (doc : Doc) : Doc × List EventRec :=
  runList (apply eng fuel) doc eng.rules

/-- A native event firing on node `eid`: the attached listeners run in
attachment order, each invoking `apply` on its captured rule. -/
def dispatch (eng : Engine) (fuel : Nat) (doc : Doc) (eid : Nat) (evt : String) :
    Doc × List EventRec :=
  runList (apply eng fuel) doc (rulesListening eng eid evt)

/-- JS primitive values as they occur in the two option records
(`opts.maxRows`, `options.containerDepth`). -/
inductive JSVal where
  | num (n : Int)
  | str (s : String)
  | boolV (b : Bool)
  | undef
deriving DecidableEq, Repr

/-- JS truthiness of a primitive value. -/
def truthy : JSVal → Bool
  | JSVal.num n => n != 0
  | JSVal.str s => s != ""
  | JSVal.boolV b => b
  | JSVal.undef => false

/-- The `Number(v)` coercion on the modelled fragment (integer-valued
numbers; `none` stands for `NaN`).  `Number("") = 0`, booleans map to
0/1, `undefined` is `NaN`. -/
def jsToNumber : JSVal → Option Int
  | JSVal.num n => some n
  | JSVal.boolV b => some (if b then 1 else 0)
  | JSVal.undef => none
  | JSVal.str s =>
    let t := jsTrim s
    if t = "" then some 0
    else if isIntLiteral t then some (parseIntLit t) else none

/-- Embedding of `MAX_ROWS = Number(opts && opts.maxRows) || 3`:
`none` models an absent `opts`/`maxRows`. -/
def resolveMaxRows (maxRows : Option JSVal) : Int :=
  match jsToNumber (maxRows.getD JSVal.undef) with
  | none => 3
  | some n => if n = 0 then 3 else n

/-- Embedding of
`containerDepth = (options && options.containerDepth) || 3`: the raw
option value is kept whenever it is truthy, without numeric coercion. -/
def resolveContainerDepth (cd : Option JSVal) : JSVal :=
  match cd with
  | some v => if truthy v then v else JSVal.num 3
  | none => JSVal.num 3

/-- Number of iterations of the `for (i = 0; i < depth && ...)` loop in
`fieldWrap` for a given `depth` value: the loose comparison `i < depth`
coerces `depth` with `Number`, a `NaN` comparison is false, so `NaN` and
non-positive depths yield zero hops. -/
def depthHops (v : JSVal) : Nat :=
  match jsToNumber v with
  | none => 0
  | some n => n.toNat

end FormSection

section ConcreteExamples

/-- A concrete row tagged `data-entity="contact"`. -/
def rowContact : Row := ⟨some "contact"⟩

/-- A concrete row tagged with a different entity. -/
def rowOther : Row := ⟨some "incident"⟩

/-- A concrete Add button in the hidden state. -/
def btnW : AddBtn :=
  { hasShowAddClass := false, styleDisplay := some "none", styleVisibility := none,
    hiddenAttr := some "true", ariaHidden := some "true", ariaDisabled := some "true",
    tabIndex := -1 }

/-- A concrete grid with one contact row, one other row and one button. -/
def gW : Grid := ⟨some ⟨[rowContact, rowOther]⟩, [btnW]⟩

/-- A concrete checked checkbox. -/
def elCb : Elem :=
  { eid := 10, selectors := ["#cb"], tagName := "INPUT", type := "checkbox", name := "cb",
    checked := true, value := "on", multiple := false, options := [],
    selectedIndex := 0, parent := none, styleDisplay := "" }

/-- First radio of the `grp` group, unchecked, value `"1"`. -/
def elR1 : Elem :=
  { eid := 11, selectors := ["#r1"], tagName := "INPUT", type := "radio", name := "grp",
    checked := false, value := "1", multiple := false, options := [],
    selectedIndex := 0, parent := none, styleDisplay := "" }

/-- Second radio of the `grp` group, checked, value `"3"`. -/
def elR2 : Elem :=
  { eid := 12, selectors := ["#r2"], tagName := "INPUT", type := "radio", name := "grp",
    checked := true, value := "3", multiple := false, options := [],
    selectedIndex := 0, parent := none, styleDisplay := "" }

/-- A multiple select with two options, none selected. -/
def elMulti : Elem :=
  { eid := 13, selectors := ["#ms"], tagName := "SELECT", type := "select-multiple", name := "ms",
    checked := false, value := "", multiple := true,
    options := [⟨"a", false⟩, ⟨"b", false⟩],
    selectedIndex := -1, parent := none, styleDisplay := "" }

/-- A multiple select with a selected option. -/
def elMultiSel : Elem :=
  { eid := 19, selectors := ["#ms2"], tagName := "SELECT", type := "select-multiple", name := "ms2",
    checked := false, value := "a", multiple := true,
    options := [⟨"a", true⟩, ⟨"b", false⟩],
    selectedIndex := 0, parent := none, styleDisplay := "" }

/-- A text input whose raw value is `" 42 "`. -/
def elN42 : Elem :=
  { eid := 14, selectors := ["#n42"], tagName := "INPUT", type := "text", name := "n42",
    checked := false, value := " 42 ", multiple := false, options := [],
    selectedIndex := 0, parent := none, styleDisplay := "" }

/-- A text input whose raw value is `"-7"`. -/
def elNeg : Elem :=
  { eid := 15, selectors := ["#neg"], tagName := "INPUT", type := "text", name := "neg",
    checked := false, value := "-7", multiple := false, options := [],
    selectedIndex := 0, parent := none, styleDisplay := "" }

/-- A text input whose raw value is `"abc"`. -/
def elAbc : Elem :=
  { eid := 16, selectors := ["#abc"], tagName := "INPUT", type := "text", name := "abc",
    checked := false, value := "abc", multiple := false, options := [],
    selectedIndex := 0, parent := none, styleDisplay := "" }

/-- A single select with its only option selected. -/
def elSel : Elem :=
  { eid := 17, selectors := ["#sel"], tagName := "SELECT", type := "select-one", name := "sel",
    checked := false, value := "a", multiple := false, options := [⟨"a", true⟩],
    selectedIndex := 0, parent := none, styleDisplay := "" }

/-- A free-text input holding `"hello"`. -/
def elTxt : Elem :=
  { eid := 18, selectors := ["#txt"], tagName := "INPUT", type := "text", name := "txt",
    checked := false, value := "hello", multiple := false, options := [],
    selectedIndex := 0, parent := none, styleDisplay := "" }

/-- A concrete document holding all the example form fields. -/
def docW : Doc :=
  ⟨[elCb, elR1, elR2, elMulti, elMultiSel, elN42, elNeg, elAbc, elSel, elTxt]⟩

/-- The checkbox after clearing. -/
def elCbCleared : Elem := { elCb with checked := false }

/-- The checked radio after its group was cleared. -/
def elR2Cleared : Elem := { elR2 with checked := false }

/-- The selected multiple select after clearing. -/
def elMultiSelCleared : Elem :=
  { elMultiSel with options := [⟨"a", false⟩, ⟨"b", false⟩] }

/-- The single select after clearing. -/
def elSelCleared : Elem := { elSel with selectedIndex := -1, value := "" }

/-- The text input after clearing. -/
def elTxtCleared : Elem := { elTxt with value := "" }

/-- Dependency field `#a` of the engine scenario, holding `"2"`. -/
def elA : Elem :=
  { eid := 0, selectors := ["#a"], tagName := "INPUT", type := "text", name := "a",
    checked := false, value := "2", multiple := false, options := [],
    selectedIndex := 0, parent := none, styleDisplay := "" }

/-- Target field `#t1` of the first engine rule. -/
def elT1 : Elem :=
  { eid := 1, selectors := ["#t1"], tagName := "INPUT", type := "text", name := "t1",
    checked := false, value := "x", multiple := false, options := [],
    selectedIndex := 0, parent := none, styleDisplay := "" }

/-- Dependency field `#b` of the second engine rule. -/
def elB : Elem :=
  { eid := 2, selectors := ["#b"], tagName := "INPUT", type := "text", name := "b",
    checked := false, value := "", multiple := false, options := [],
    selectedIndex := 0, parent := none, styleDisplay := "" }

/-- Target field `#t2` of the second engine rule: its value is already
empty and its container already hidden. -/
def elT2 : Elem :=
  { eid := 3, selectors := ["#t2"], tagName := "INPUT", type := "text", name := "t2",
    checked := false, value := "", multiple := false, options := [],
    selectedIndex := 0, parent := none, styleDisplay := "none" }

/-- The engine scenario document. -/
def docEx : Doc := ⟨[elA, elT1, elB, elT2]⟩

/-- Rule showing `#t1` exactly when `#a` reads as the integer 1. -/
def ruleA : Rule :=
  { target := "#t1", deps := ["#a"],
    when := fun c => decide (ctxVal c "#a" = Value.scalar (Scalar.int 1)),
    clearWhenHidden := false }

/-- Rule keeping `#t2` always hidden with clear-on-hide on; it listens
only on `#b`. -/
def ruleB : Rule :=
  { target := "#t2", deps := ["#b"],
    when := fun _ => false,
    clearWhenHidden := true }

/-- A rule whose target and dependency selectors resolve to nothing. -/
def ruleNope : Rule :=
  { target := "#nope", deps := ["#nope"],
    when := fun _ => true,
    clearWhenHidden := true }

/-- The two-rule engine installed over `docEx`. -/
def engEx : Engine :=
  { rules := [ruleA, ruleB], listeners := installListeners docEx [ruleA, ruleB], depth := 3 }

/-- A one-rule engine over `docEx`, every rule of which listens on `#a`. -/
def engW1 : Engine :=
  { rules := [ruleA], listeners := installListeners docEx [ruleA], depth := 3 }

/-- Root of a four-element parent chain. -/
def elRoot : Elem :=
  { eid := 23, selectors := ["#root"], tagName := "DIV", type := "", name := "",
    checked := false, value := "", multiple := false, options := [],
    selectedIndex := 0, parent := none, styleDisplay := "" }

/-- Second intermediate wrapper of the chain. -/
def elMid2 : Elem :=
  { eid := 22, selectors := [], tagName := "DIV", type := "", name := "",
    checked := false, value := "", multiple := false, options := [],
    selectedIndex := 0, parent := some 23, styleDisplay := "" }

/-- First intermediate wrapper of the chain. -/
def elMid1 : Elem :=
  { eid := 21, selectors := [], tagName := "DIV", type := "", name := "",
    checked := false, value := "", multiple := false, options := [],
    selectedIndex := 0, parent := some 22, styleDisplay := "" }

/-- A field at the bottom of the parent chain. -/
def elChild : Elem :=
  { eid := 20, selectors := ["#child"], tagName := "INPUT", type := "text", name := "c",
    checked := false, value := "", multiple := false, options := [],
    selectedIndex := 0, parent := some 21, styleDisplay := "" }

/-- Document holding the parent chain. -/
def docChain : Doc := ⟨[elChild, elMid1, elMid2, elRoot]⟩

end ConcreteExamples

/-- Lemma: `showAdd` is idempotent (it overwrites every field it reads). -/
theorem showAdd_idem (b : AddBtn) : showAdd (showAdd b) = showAdd b := rfl

/-- Lemma: `hideAdd` is idempotent (the one field it keeps, the inline
`visibility` property, it also keeps on the second run). -/
theorem hideAdd_idem (b : AddBtn) : hideAdd (hideAdd b) = hideAdd b := rfl

/-- Lemma: mapping `showAdd` twice equals mapping it once. -/
theorem map_showAdd_idem (l : List AddBtn) :
    (l.map showAdd).map showAdd = l.map showAdd := by
  induction l with
  | nil => rfl
  | cons b l ih => simp [ih, showAdd_idem]

/-- Lemma: mapping `hideAdd` twice equals mapping it once. -/
theorem map_hideAdd_idem (l : List AddBtn) :
    (l.map hideAdd).map hideAdd = l.map hideAdd := by
  induction l with
  | nil => rfl
  | cons b l ih => simp [ih, hideAdd_idem]

/-- Lemma: `countRows` ignores the buttons, so toggling does not change
the row count. -/
theorem countRows_toggleInGrid (m : Int) (en f : String) (g : Grid) :
    countRows (toggleInGrid m en g) f = countRows g f := by
  simp only [toggleInGrid]
  split <;> rfl

/-- C1: `countRows` returns the entity-filtered row count whenever a
filter is configured (non-empty) and at least one row matches it, and the
unfiltered count of all tbody rows otherwise (filter configured with zero
matches, or no filter configured). -/
theorem countRows_fallback (g : Grid) (f : String) :
    countRows g f =
      if f ≠ "" ∧ 0 < filteredCount g f then filteredCount g f else allRows g := by
  rcases g with ⟨table, buttons⟩
  cases table with
  | none => simp [countRows, filteredCount, allRows]
  | some t =>
    simp only [countRows, filteredCount, allRows]
    by_cases hf : f = ""
    · simp [hf]
    · by_cases hc : (t.tbodyRows.filter (fun r => r.dataEntity = some f)).length = 0
      · simp [hf, hc]
      · simp [hf, hc, Nat.pos_of_ne_zero hc]

/-- C2: when the row count is below `maxRows`, `toggleInGrid` runs
`showAdd` over every matched button (hidden removed, ARIA attributes
`"false"`, `tabIndex 0`); when the row count has reached `maxRows`, it
runs `hideAdd` over every matched button (hidden set, ARIA attributes
`"true"`, `tabIndex -1`); and re-invoking it with the row count unchanged
leaves the state unchanged. -/
theorem toggleInGrid_spec (m : Int) (en : String) (g : Grid) :
    ((countRows g en : Int) < m →
      (toggleInGrid m en g).buttons = g.buttons.map showAdd) ∧
    (m ≤ (countRows g en : Int) →
      (toggleInGrid m en g).buttons = g.buttons.map hideAdd) ∧
    (∀ b : AddBtn, (showAdd b).hiddenAttr = none ∧ (showAdd b).ariaHidden = some "false" ∧
      (showAdd b).ariaDisabled = some "false" ∧ (showAdd b).tabIndex = 0) ∧
    (∀ b : AddBtn, (hideAdd b).hiddenAttr = some "true" ∧ (hideAdd b).ariaHidden = some "true" ∧
      (hideAdd b).ariaDisabled = some "true" ∧ (hideAdd b).tabIndex = -1) ∧
    toggleInGrid m en (toggleInGrid m en g) = toggleInGrid m en g := by
  refine ⟨?_, ?_, fun b => ⟨rfl, rfl, rfl, rfl⟩, fun b => ⟨rfl, rfl, rfl, rfl⟩, ?_⟩
  · intro h; simp [toggleInGrid, h]
  · intro h; simp [toggleInGrid, Int.not_lt.mpr h]
  · by_cases h : (countRows g en : Int) < m
    · have h1 : toggleInGrid m en g = { g with buttons := g.buttons.map showAdd } := by
        simp [toggleInGrid, h]
      have hc : countRows { g with buttons := g.buttons.map showAdd } en = countRows g en := rfl
      rw [h1]
      simp [toggleInGrid, hc, h, map_showAdd_idem]
      exact fun a _ => rfl
    · have h1 : toggleInGrid m en g = { g with buttons := g.buttons.map hideAdd } := by
        simp [toggleInGrid, h]
      have hc : countRows { g with buttons := g.buttons.map hideAdd } en = countRows g en := rfl
      rw [h1]
      simp [toggleInGrid, hc, h, map_hideAdd_idem]
      exact fun a _ => rfl

/-- Witness for C2 at a concrete grid: two rows against limits 3 and 2. -/
theorem toggleInGrid_spec_witness :
    (toggleInGrid 3 "" gW).buttons = gW.buttons.map showAdd ∧
    (toggleInGrid 2 "" gW).buttons = gW.buttons.map hideAdd ∧
    (showAdd btnW).hiddenAttr = none ∧
    (hideAdd btnW).tabIndex = -1 :=
  ⟨(toggleInGrid_spec 3 "" gW).1 (by decide),
   (toggleInGrid_spec 2 "" gW).2.1 (by decide),
   ((toggleInGrid_spec 3 "" gW).2.2.1 btnW).1,
   ((toggleInGrid_spec 3 "" gW).2.2.2.1 btnW).2.2.2⟩

/-- C3: `val` classifies by field kind exactly as the if-chain of the
source does — checkbox → boolean; radio → the coerced value of the
checked group member, or coerced empty string if none; multiple select →
the sequence of coerced selected-option values; every other field → the
trimmed value, coerced to an integer exactly when the optionally-signed
integer-literal regex matches, otherwise kept as the trimmed string. -/
theorem val_spec (doc : Doc) (el : Elem) :
    (asciiLower el.type = "checkbox" → val doc (some el) = Value.bool el.checked) ∧
    (asciiLower el.type = "radio" →
      val doc (some el) = Value.scalar (coerceNumber
        (match (radioGroup doc el.name).find? (fun x => x.checked) with
         | some r => r.value
         | none => ""))) ∧
    (asciiLower el.type ≠ "checkbox" → asciiLower el.type ≠ "radio" →
      asciiUpper el.tagName = "SELECT" → el.multiple = true →
      val doc (some el) =
        Value.seq ((el.options.filter (fun o => o.selected)).map
          (fun o => coerceNumber o.value))) ∧
    (asciiLower el.type ≠ "checkbox" → asciiLower el.type ≠ "radio" →
      (asciiUpper el.tagName = "SELECT" → el.multiple = false) →
      val doc (some el) = Value.scalar (coerceNumber (jsTrim el.value))) ∧
    (∀ s : String, (∃ n, coerceNumber s = Scalar.int n) ↔ isIntLiteral s = true) ∧
    (∀ s : String, isIntLiteral s = false → coerceNumber s = Scalar.str s) := by
  refine ⟨?_, ?_, ?_, ?_, ?_, ?_⟩
  · intro h; simp [val, h]
  · intro h
    simp only [val, h]
    cases hfind : (radioGroup doc el.name).find? (fun x => x.checked) <;> simp [hfind]
  · intro h1 h2 h3 h4; simp [val, h1, h2, h3, h4]
  · intro h1 h2 hm
    by_cases hs : asciiUpper el.tagName = "SELECT"
    · simp [val, h1, h2, hs, hm hs]
    · simp [val, h1, h2, hs]
  · intro s
    by_cases h : isIntLiteral s <;> simp [coerceNumber, h]
  · intro s h; simp [coerceNumber, h]

/-- Witness for C3: concrete coercions — checked checkbox → `true`,
checked radio of value `"3"` → `3`, unselected multiple select → empty
sequence, `" 42 "` → `42`, `"-7"` → `-7`, `"abc"` → `"abc"`. -/
theorem val_spec_witness :
    val docW (some elCb) = Value.bool true ∧
    val docW (some elR2) = Value.scalar (Scalar.int 3) ∧
    val docW (some elMulti) = Value.seq [] ∧
    val docW (some elN42) = Value.scalar (Scalar.int 42) ∧
    val docW (some elNeg) = Value.scalar (Scalar.int (-7)) ∧
    val docW (some elAbc) = Value.scalar (Scalar.str "abc") := by
  refine ⟨(val_spec docW elCb).1 (by decide),
          ((val_spec docW elR2).2.1 (by decide)).trans (by decide),
          ((val_spec docW elMulti).2.2.1 (by decide) (by decide) (by decide) (by decide)).trans
            (by decide),
          ((val_spec docW elN42).2.2.2.1 (by decide) (by decide) (by decide)).trans (by decide),
          ((val_spec docW elNeg).2.2.2.1 (by decide) (by decide) (by decide)).trans (by decide),
          ((val_spec docW elAbc).2.2.2.1 (by decide) (by decide) (by decide)).trans (by decide)⟩

/-- C8: `val` is total by construction (it is a total Lean function
translated branch-for-branch from the source, whose branches cover every
element and which guards the null element), a missing element yields the
empty-string scalar, and every result is one of the three `Value`
shapes — boolean, scalar, or sequence of scalars. -/
theorem val_total (doc : Doc) (elOpt : Option Elem) :
    val doc none = Value.scalar (Scalar.str "") ∧
    ((∃ b, val doc elOpt = Value.bool b) ∨ (∃ s, val doc elOpt = Value.scalar s) ∨
     (∃ xs, val doc elOpt = Value.seq xs)) := by
  refine ⟨rfl, ?_⟩
  cases hv : val doc elOpt with
  | bool b => exact Or.inl ⟨b, rfl⟩
  | scalar s => exact Or.inr (Or.inl ⟨s, rfl⟩)
  | seq xs => exact Or.inr (Or.inr ⟨xs, rfl⟩)

/-- C4: `clearValue` on a present element dispatches exactly one `change`
and one `input` event on that element, and clears by field kind: checkbox
→ unchecked; radio → every member of the name group unchecked; multiple
select → every option deselected; single select → `selectedIndex -1` and
empty value; any other field → empty value. -/
theorem clearValue_spec (doc : Doc) (el : Elem) :
    ((clearValue doc (some el)).2 = [⟨el.eid, "change"⟩, ⟨el.eid, "input"⟩]) ∧
    (asciiLower el.type = "checkbox" →
      ∀ e ∈ (clearValue doc (some el)).1.elems, e.eid = el.eid → e.checked = false) ∧
    (asciiLower el.type = "radio" →
      ∀ e ∈ (clearValue doc (some el)).1.elems, isRadioNamed el.name e = true →
        e.checked = false) ∧
    (asciiLower el.type ≠ "checkbox" → asciiLower el.type ≠ "radio" →
      asciiUpper el.tagName = "SELECT" → el.multiple = true →
      ∀ e ∈ (clearValue doc (some el)).1.elems, e.eid = el.eid →
        ∀ o ∈ e.options, o.selected = false) ∧
    (asciiLower el.type ≠ "checkbox" → asciiLower el.type ≠ "radio" →
      asciiUpper el.tagName = "SELECT" → el.multiple = false →
      ∀ e ∈ (clearValue doc (some el)).1.elems, e.eid = el.eid →
        e.selectedIndex = -1 ∧ e.value = "") ∧
    (asciiLower el.type ≠ "checkbox" → asciiLower el.type ≠ "radio" →
      asciiUpper el.tagName ≠ "SELECT" →
      ∀ e ∈ (clearValue doc (some el)).1.elems, e.eid = el.eid → e.value = "") := by
  refine ⟨rfl, ?_, ?_, ?_, ?_, ?_⟩
  · intro h e he heid
    simp [clearValue, clearDoc, h, updateById, List.mem_map] at he
    obtain ⟨x, hx, rfl⟩ := he
    by_cases hxe : x.eid = el.eid
    · rw [if_pos hxe]
    · rw [if_neg hxe] at heid
      exact absurd heid hxe
  · intro h e he hr
    simp [clearValue, clearDoc, h, List.mem_map] at he
    obtain ⟨x, hx, rfl⟩ := he
    by_cases hxr : isRadioNamed el.name x = true
    · rw [if_pos hxr]
    · rw [if_neg hxr] at hr
      exact absurd hr hxr
  · intro h1 h2 h3 h4 e he heid o ho
    simp [clearValue, clearDoc, h1, h2, h3, h4, updateById, List.mem_map] at he
    obtain ⟨x, hx, rfl⟩ := he
    by_cases hxe : x.eid = el.eid
    · rw [if_pos hxe] at ho
      simp only [List.mem_map] at ho
      obtain ⟨y, hy, rfl⟩ := ho
      rfl
    · rw [if_neg hxe] at heid
      exact absurd heid hxe
  · intro h1 h2 h3 h4 e he heid
    simp [clearValue, clearDoc, h1, h2, h3, h4, updateById, List.mem_map] at he
    obtain ⟨x, hx, rfl⟩ := he
    by_cases hxe : x.eid = el.eid
    · rw [if_pos hxe]
      exact ⟨rfl, rfl⟩
    · rw [if_neg hxe] at heid
      exact absurd heid hxe
  · intro h1 h2 h3 e he heid
    simp [clearValue, clearDoc, h1, h2, h3, updateById, List.mem_map] at he
    obtain ⟨x, hx, rfl⟩ := he
    by_cases hxe : x.eid = el.eid
    · rw [if_pos hxe]
    · rw [if_neg hxe] at heid
      exact absurd heid hxe

/-- Witness for C4 at concrete fields of each kind, including the exact
event trace of one invocation. -/
theorem clearValue_spec_witness :
    (clearValue docW (some elCb)).2 = [⟨10, "change"⟩, ⟨10, "input"⟩] ∧
    elCbCleared.checked = false ∧
    elR2Cleared.checked = false ∧
    (⟨"a", false⟩ : OptionEl).selected = false ∧
    elSelCleared.selectedIndex = -1 ∧
    elTxtCleared.value = "" :=
  ⟨(clearValue_spec docW elCb).1,
   (clearValue_spec docW elCb).2.1 (by decide) elCbCleared (by decide) rfl,
   (clearValue_spec docW elR2).2.2.1 (by decide) elR2Cleared (by decide) (by decide),
   (clearValue_spec docW elMultiSel).2.2.2.1 (by decide) (by decide) (by decide) (by decide)
     elMultiSelCleared (by decide) rfl ⟨"a", false⟩ (by decide),
   ((clearValue_spec docW elSel).2.2.2.2.1 (by decide) (by decide) (by decide) (by decide)
     elSelCleared (by decide) rfl).1,
   (clearValue_spec docW elTxt).2.2.2.2.2 (by decide) (by decide) (by decide)
     elTxtCleared (by decide) rfl⟩

/-- Lemma: filtering a list down to the elements on which an optional
function succeeds does not change the result of `filterMap`-ing it. -/
theorem filterMap_filter_isSome {α β : Type} (f : α → Option β) (l : List α) :
    (l.filter (fun a => (f a).isSome)).filterMap f = l.filterMap f := by
  induction l with
  | nil => rfl
  | cons a l ih =>
    cases h : f a with
    | none => simp [List.filter_cons, List.filterMap_cons, h, ih]
    | some b => simp [List.filter_cons, List.filterMap_cons, h, ih]

/-- C6: a rule whose target selector resolves to nothing is skipped
entirely — the document is unchanged, no event is dispatched, and the
outcome does not depend on the predicate (it is never invoked); and
dependency selectors that resolve to nothing contribute no listeners at
install time.  (No error channel exists in the embedding because the
source raises none on these paths.) -/
theorem missing_skip (eng : Engine) (doc : Doc) (rule : Rule) (fuel : Nat) :
    (querySelector doc rule.target = none → apply eng fuel doc rule = (doc, [])) ∧
    (querySelector doc rule.target = none → ∀ p q : Ctx → Bool,
      apply eng fuel doc { rule with when := p } = apply eng fuel doc { rule with when := q }) ∧
    (∀ (d : String) (ds1 ds2 : List String), querySelector doc d = none →
      (installListeners doc [{ rule with deps := ds1 ++ d :: ds2 }]).map
          (fun l => (l.eid, l.evt)) =
        (installListeners doc [{ rule with deps := ds1 ++ ds2 }]).map
          (fun l => (l.eid, l.evt))) := by
  have hskip : ∀ r : Rule, querySelector doc r.target = none →
      apply eng fuel doc r = (doc, []) := by
    intro r h
    cases fuel with
    | zero => rfl
    | succ n => simp [apply, applyCore, h]
  refine ⟨hskip rule, ?_, ?_⟩
  · intro h p q
    rw [hskip { rule with when := p } h, hskip { rule with when := q } h]
  · intro d ds1 ds2 h
    simp [installListeners, wireRule, List.filterMap_append, List.filterMap_cons, h,
      List.map_flatMap]

/-- Witness for C6: the unresolvable rule `ruleNope` is a no-op on the
engine scenario document, independently of its predicate, and wires no
listeners. -/
theorem missing_skip_witness :
    apply engEx 5 docEx ruleNope = (docEx, []) ∧
    apply engEx 5 docEx { ruleNope with when := fun _ => true } =
      apply engEx 5 docEx { ruleNope with when := fun _ => false } ∧
    (installListeners docEx [{ ruleA with deps := [] ++ "#nope" :: ["#a"] }]).map
        (fun l => (l.eid, l.evt)) =
      (installListeners docEx [{ ruleA with deps := [] ++ ["#a"] }]).map
        (fun l => (l.eid, l.evt)) :=
  ⟨(missing_skip engEx docEx ruleNope 5).1 (by decide),
   (missing_skip engEx docEx ruleNope 5).2.1 (by decide) (fun _ => true) (fun _ => false),
   (missing_skip engEx docEx ruleA 5).2.2 "#nope" [] ["#a"] (by decide)⟩

/-- C5 (amended): the context object `apply` passes to a rule's
predicate exposes exactly the properties `val`, `get` and `targetEl` (not
`valueOf`/`elementOf`/`targetElement`), where `val` reads the coerced
value of a selector, `get` reads the raw element and `targetEl` is the
resolved target; and the show/hide decision of an evaluation comes from
invoking the rule field named `when` (with `clearWhenHidden` guarding the
clear step), as the two branch equations show. -/
theorem ctx_shape (doc : Doc) (t : Elem) (eng : Engine) (rule : Rule) (n : Nat) :
    ((mkCtx doc t).map Prod.fst = ["val", "get", "targetEl"]) ∧
    (List.lookup "val" (mkCtx doc t) =
      some (CtxField.valFn (fun s => val doc (querySelector doc s)))) ∧
    (List.lookup "get" (mkCtx doc t) =
      some (CtxField.getFn (fun s => querySelector doc s))) ∧
    (List.lookup "targetEl" (mkCtx doc t) = some (CtxField.elemRef t)) ∧
    (querySelector doc rule.target = some t → rule.when (mkCtx doc t) = true →
      apply eng (n + 1) doc rule =
        (updateById doc (fieldWrap doc t eng.depth).eid
          (fun e => { e with styleDisplay := "" }), [])) ∧
    (querySelector doc rule.target = some t → rule.when (mkCtx doc t) = false →
      rule.clearWhenHidden = false →
      apply eng (n + 1) doc rule =
        (updateById doc (fieldWrap doc t eng.depth).eid
          (fun e => { e with styleDisplay := "none" }), [])) := by
  refine ⟨rfl, rfl, rfl, rfl, ?_, ?_⟩
  · intro h1 h2
    simp [apply, applyCore, h1, h2]
  · intro h1 h2 h3
    simp [apply, applyCore, h1, h2, h3]

/-- Counterexample to C5 as stated: at a concrete context built by
`apply`, none of the property names the claim asserts (`valueOf`,
`elementOf`, `targetElement`) exists — a predicate reading them would
find `undefined` — while the actual property list is
`val`, `get`, `targetEl`. -/
theorem ctx_shape_cex :
    (mkCtx docW elN42).map Prod.fst ≠ ["valueOf", "elementOf", "targetElement"] ∧
    List.lookup "valueOf" (mkCtx docW elN42) = none ∧
    List.lookup "elementOf" (mkCtx docW elN42) = none ∧
    List.lookup "targetElement" (mkCtx docW elN42) = none :=
  ⟨by decide, rfl, rfl, rfl⟩

/-- Witness for C5: the concrete key list, and both branch equations of
the engine scenario (`ruleA` hides `#t1` on `docEx` since `#a` reads 2,
and shows it when `#a` holds `"1"`). -/
theorem ctx_shape_witness :
    (mkCtx docEx elT1).map Prod.fst = ["val", "get", "targetEl"] ∧
    apply engEx (4 + 1) docEx ruleA =
      (updateById docEx (fieldWrap docEx elT1 engEx.depth).eid
        (fun e => { e with styleDisplay := "none" }), []) :=
  ⟨(ctx_shape docEx elT1 engEx ruleA 4).1,
   (ctx_shape docEx elT1 engEx ruleA 4).2.2.2.2.2 (by decide) (by decide) rfl⟩

/-- C7 (amended): a native `change` event on a dependency runs, in
attachment order, exactly the listeners registered there, each executing
the same `apply` as `reapplyAll` does; so whenever every rule has the
changed dependency among its install-time-resolved `deps` (its listener
list for that node is the whole rule list), the two paths coincide
exactly — document state and dispatched events. -/
theorem reapply_matches_change (eng : Engine) (fuel : Nat) (doc : Doc) (d : Nat)
    (h : rulesListening eng d "change" = eng.rules) :
    dispatch eng fuel doc d "change" = reapplyAll eng fuel doc := by
  simp only [dispatch, reapplyAll, h]

/-- Witness for C7: on the one-rule engine every rule listens on `#a`,
and the native-change path equals `reapplyAll`. -/
theorem reapply_matches_change_witness :
    dispatch engW1 5 docEx 0 "change" = reapplyAll engW1 5 docEx :=
  reapply_matches_change engW1 5 docEx 0 rfl

/-- Counterexample to C7 as stated: on the two-rule engine, after the
programmatic write that left `#a` holding `"2"`, a native `change` on
`#a` (node 0) and `reapplyAll()` produce the same document but different
synthetic-event traces — `reapplyAll` re-runs the hidden clear-on-hide
rule `ruleB`, re-firing `change`/`input` on `#t2` (node 3), which the
native path never touches. -/
theorem reapply_vs_change_cex :
    (dispatch engEx 5 docEx 0 "change").1 = (reapplyAll engEx 5 docEx).1 ∧
    (dispatch engEx 5 docEx 0 "change").2 = [] ∧
    (reapplyAll engEx 5 docEx).2 = [⟨3, "change"⟩, ⟨3, "input"⟩] ∧
    (dispatch engEx 5 docEx 0 "change").2 ≠ (reapplyAll engEx 5 docEx).2 :=
  ⟨by decide, by decide, by decide, by decide⟩

/-- C10: whenever an evaluation of a rule with `clearWhenHidden` decides
to hide, the clear runs and both synthetic events fire on the target —
with no condition on the target's current value or the container's
current visibility, so they re-fire on every such evaluation. -/
theorem clear_fires_always (eng : Engine) (doc : Doc) (rule : Rule) (t : Elem) (n : Nat)
    (h1 : querySelector doc rule.target = some t)
    (h2 : rule.when (mkCtx doc t) = false)
    (h3 : rule.clearWhenHidden = true) :
    ∃ e1 e2, (apply eng (n + 1) doc rule).2 =
      (⟨t.eid, "change"⟩ : EventRec) :: e1 ++ (⟨t.eid, "input"⟩ : EventRec) :: e2 := by
  simp only [apply, applyCore, h1, h2, h3, Bool.not_false, Bool.true_and, if_true]
  exact ⟨_, _, rfl⟩

/-- Witness for C10: on the engine scenario, evaluating `ruleB` — whose
target `#t2` is already cleared and already hidden — still dispatches
`change` first and `input` later on node 3. -/
theorem clear_fires_always_witness :
    (apply engEx 5 docEx ruleB).2.head? = some ⟨3, "change"⟩ ∧
    (⟨3, "input"⟩ : EventRec) ∈ (apply engEx 5 docEx ruleB).2 := by
  obtain ⟨e1, e2, h⟩ := clear_fires_always engEx docEx ruleB elT2 4 (by decide) rfl rfl
  have h5 : (apply engEx 5 docEx ruleB).2 =
      (⟨3, "change"⟩ : EventRec) :: e1 ++ (⟨3, "input"⟩ : EventRec) :: e2 := h
  constructor
  · rw [h5]; rfl
  · rw [h5]; simp

/-- C9 (amended): falsy configuration values are indistinguishable from
omitted ones — `maxRows` resolves to 3 whenever its `Number` coercion is
`NaN` or 0 (so the resolved limit is never 0), and a falsy
`containerDepth` (including 0) resolves to 3. -/
theorem config_defaults (mr : Option JSVal) (cd : JSVal) :
    resolveMaxRows none = 3 ∧
    resolveMaxRows (some (JSVal.num 0)) = 3 ∧
    (jsToNumber (mr.getD JSVal.undef) = none → resolveMaxRows mr = 3) ∧
    (jsToNumber (mr.getD JSVal.undef) = some 0 → resolveMaxRows mr = 3) ∧
    resolveMaxRows mr ≠ 0 ∧
    (truthy cd = false → resolveContainerDepth (some cd) = JSVal.num 3) ∧
    resolveContainerDepth (some (JSVal.num 0)) = JSVal.num 3 ∧
    resolveContainerDepth none = JSVal.num 3 := by
  refine ⟨rfl, rfl, ?_, ?_, ?_, ?_, rfl, rfl⟩
  · intro h; simp [resolveMaxRows, h]
  · intro h; simp [resolveMaxRows, h]
  · unfold resolveMaxRows
    cases hmr : jsToNumber (mr.getD JSVal.undef) with
    | none => decide
    | some n =>
      by_cases hn : n = 0
      · simp [hn]
      · simp [hn]
  · intro h; simp [resolveContainerDepth, h]

/-- Witness for C9: `"abc"` coerces to `NaN`, `""` coerces to 0, both
resolve to 3; depth 0 is falsy; a negative limit still is not 0. -/
theorem config_defaults_witness :
    resolveMaxRows (some (JSVal.str "abc")) = 3 ∧
    resolveMaxRows (some (JSVal.str "")) = 3 ∧
    resolveContainerDepth (some (JSVal.num 0)) = JSVal.num 3 ∧
    resolveMaxRows (some (JSVal.num (-2))) ≠ 0 :=
  ⟨(config_defaults (some (JSVal.str "abc")) JSVal.undef).2.2.1 (by decide),
   (config_defaults (some (JSVal.str "")) JSVal.undef).2.2.2.1 (by decide),
   (config_defaults none (JSVal.num 0)).2.2.2.2.2.1 (by decide),
   (config_defaults (some (JSVal.num (-2))) JSVal.undef).2.2.2.2.1⟩

/-- Counterexample to C9 as stated: a truthy non-numeric `maxRows` is not
replaced by 3 (`true` gives limit 1, the string `"5"` gives 5), and a
caller can obtain zero ancestor hops by passing the truthy string
`"0"` as `containerDepth`, which the loose `i < depth` comparison treats
as 0 — while the omitted-depth default walks the full three hops. -/
theorem config_defaults_cex :
    resolveMaxRows (some (JSVal.boolV true)) = 1 ∧
    resolveMaxRows (some (JSVal.str "5")) = 5 ∧
    resolveContainerDepth (some (JSVal.str "0")) = JSVal.str "0" ∧
    depthHops (JSVal.str "0") = 0 ∧
    fieldWrap docChain elChild (depthHops (resolveContainerDepth (some (JSVal.str "0")))) =
      elChild ∧
    elChild.parent = some 21 ∧
    fieldWrap docChain elChild (depthHops (resolveContainerDepth none)) = elRoot := by
  decide

end PowerPages
